import Mathlib

/-!
# Shadow mapping demo (`Shadow_mapping/main.cpp`): a shallow embedding

The program is embedded over an arbitrary linearly ordered field `K`
("exact arithmetic": `float` rounding is not modelled).  Instantiating `K`
with `ℚ` makes every definition below evaluable; instantiating it with `ℝ`
gives the reading used for the sphere tessellation.  The one place where the
difference between `float` and exact arithmetic decides a property, the
re-association of matrix products, is examined with a model of binary32
rounding (`F32`).

* glm vectors and matrices are structures; a `mat4` is four column vectors, as
  glm stores it, and the operators follow glm's definitions.
* `glm::lookAt`, `glm::perspective`, `glm::inverse` need square roots and
  tangents; they are parameters (`GlmFns`).
* OpenGL calls are recorded as a trace of `GLCmd` values.
* Globals declared in `BasicFunctions.h` (not part of the sources at hand:
  `program`, `renderProgram`, `uniMVP`, `sphere1`, `sphere2`, `plane`) are
  fields of the `Program` state.
-/

set_option linter.unusedVariables false

namespace ShadowMapping

/-! ## glm vectors and matrices -/

/-- The glm type `vec3`. -/
structure Vec3 (K : Type) where
  x : K
  y : K
  z : K
  deriving DecidableEq, Repr

/-- The glm type `vec4`. -/
structure Vec4 (K : Type) where
  x : K
  y : K
  z : K
  w : K
  deriving DecidableEq, Repr

/-- The glm type `mat3`: three columns. -/
structure Mat3 (K : Type) where
  c0 : Vec3 K
  c1 : Vec3 K
  c2 : Vec3 K
  deriving DecidableEq, Repr

/-- The glm type `mat4`: four columns (`m[0]`, `m[1]`, `m[2]`, `m[3]`). -/
structure Mat4 (K : Type) where
  c0 : Vec4 K
  c1 : Vec4 K
  c2 : Vec4 K
  c3 : Vec4 K
  deriving DecidableEq, Repr

section Glm

variable {K : Type} [LinearOrderedField K]

/-- Componentwise sum, `vec3 + vec3` (and `+=`). -/
def Vec3.add (a b : Vec3 K) : Vec3 K := ⟨a.x + b.x, a.y + b.y, a.z + b.z⟩

/-- Componentwise difference, `vec3 - vec3`. -/
def Vec3.sub (a b : Vec3 K) : Vec3 K := ⟨a.x - b.x, a.y - b.y, a.z - b.z⟩

/-- Scaling, `vec3 * float`. -/
def Vec3.scale (a : Vec3 K) (s : K) : Vec3 K := ⟨a.x * s, a.y * s, a.z * s⟩

/-- The glm constructor `vec3(s)`: all components equal. -/
def Vec3.splat (s : K) : Vec3 K := ⟨s, s, s⟩

/-- Componentwise sum, `vec4 + vec4`. -/
def Vec4.add (a b : Vec4 K) : Vec4 K := ⟨a.x + b.x, a.y + b.y, a.z + b.z, a.w + b.w⟩

/-- Scaling, `vec4 * float`. -/
def Vec4.scale (a : Vec4 K) (s : K) : Vec4 K := ⟨a.x * s, a.y * s, a.z * s, a.w * s⟩

instance : Add (Vec3 K) := ⟨Vec3.add⟩
instance : Sub (Vec3 K) := ⟨Vec3.sub⟩
instance : HMul (Vec3 K) K (Vec3 K) := ⟨Vec3.scale⟩
instance : Add (Vec4 K) := ⟨Vec4.add⟩
instance : HMul (Vec4 K) K (Vec4 K) := ⟨Vec4.scale⟩

/-- The glm constructor `mat4(x0, y0, z0, w0, x1, ..., w3)`: sixteen scalars in
column-major order, four per column. -/
def Mat4.ofScalars (x0 y0 z0 w0 x1 y1 z1 w1 x2 y2 z2 w2 x3 y3 z3 w3 : K) : Mat4 K :=
  ⟨⟨x0, y0, z0, w0⟩, ⟨x1, y1, z1, w1⟩, ⟨x2, y2, z2, w2⟩, ⟨x3, y3, z3, w3⟩⟩

/-- The glm constructor `mat4(s)`: `s` on the diagonal. -/
def Mat4.diag (s : K) : Mat4 K :=
  ⟨⟨s, 0, 0, 0⟩, ⟨0, s, 0, 0⟩, ⟨0, 0, s, 0⟩, ⟨0, 0, 0, s⟩⟩

/-- The product `mat4 * vec4`: `m[0] * v.x + m[1] * v.y + m[2] * v.z + m[3] * v.w`. -/
def Mat4.mulVec (m : Mat4 K) (v : Vec4 K) : Vec4 K :=
  m.c0 * v.x + m.c1 * v.y + m.c2 * v.z + m.c3 * v.w

/-- The product `mat4 * mat4`: column `j` of the result is `m1 * m2[j]`.  Over
a field this product is associative; the same formula on `float` values
(`F32.matMul`) is not. -/
def Mat4.mul (m1 m2 : Mat4 K) : Mat4 K :=
  ⟨m1.mulVec m2.c0, m1.mulVec m2.c1, m1.mulVec m2.c2, m1.mulVec m2.c3⟩

instance : Mul (Mat4 K) := ⟨Mat4.mul⟩
instance : HMul (Mat4 K) (Vec4 K) (Vec4 K) := ⟨Mat4.mulVec⟩

/-- The glm function `translate(m, v)`: `m` with its last column replaced by
`m[0] * v[0] + m[1] * v[1] + m[2] * v[2] + m[3]`. -/
def translate (m : Mat4 K) (v : Vec3 K) : Mat4 K :=
  { m with c3 := m.c0 * v.x + m.c1 * v.y + m.c2 * v.z + m.c3 }

/-- The glm constructor `mat3(mat4)`: the upper-left 3x3 block. -/
def Mat3.ofMat4 (m : Mat4 K) : Mat3 K :=
  ⟨⟨m.c0.x, m.c0.y, m.c0.z⟩, ⟨m.c1.x, m.c1.y, m.c1.z⟩, ⟨m.c2.x, m.c2.y, m.c2.z⟩⟩

/-- The glm function `transpose` on `mat3`. -/
def Mat3.transpose (m : Mat3 K) : Mat3 K :=
  ⟨⟨m.c0.x, m.c1.x, m.c2.x⟩, ⟨m.c0.y, m.c1.y, m.c2.y⟩, ⟨m.c0.z, m.c1.z, m.c2.z⟩⟩

end Glm

/-- The glm functions the program calls whose results involve square roots,
tangents or a determinant inverse; they are taken as given. -/
structure GlmFns (K : Type) where
  /-- The function `glm::lookAt(eye, center, up)`. -/
  lookAt : Vec3 K → Vec3 K → Vec3 K → Mat4 K
  /-- The function `glm::perspective(fovy, aspect, zNear, zFar)`. -/
  perspective : K → K → K → K → Mat4 K
  /-- The function `glm::inverse` on `mat3`. -/
  inverse : Mat3 K → Mat3 K

/-! ## Constants -/

/-- The macro `WindowSize`. -/
def WindowSize : Int := 800

/-- The macro `DIVISIONS`. -/
def DIVISIONS : Nat := 40

section Light

variable {K : Type} [LinearOrderedField K]

/-- The macro `speed` (`0.3f`). -/
def speed : K := 3 / 10

/-- The macro `TextureSize` (`800.0f`). -/
def TextureSize : K := 800

/-! ## GLFW key and action codes (`glfw3.h`) -/

def GLFW_RELEASE : Int := 0
def GLFW_PRESS : Int := 1
def GLFW_REPEAT : Int := 2
def GLFW_KEY_SPACE : Int := 32
def GLFW_KEY_A : Int := 65
def GLFW_KEY_D : Int := 68
def GLFW_KEY_R : Int := 82
def GLFW_KEY_S : Int := 83
def GLFW_KEY_W : Int := 87
def GLFW_KEY_LEFT_SHIFT : Int := 340

/-! ## The light -/

/-- The struct `LightParams`. -/
structure LightParams (K : Type) where
  forward : Vec3 K
  position : Vec3 K
  Intensity : Vec3 K
  Bias : Mat4 K
  Projection : Mat4 K
  View : Mat4 K
  S : Mat4 K
  deriving DecidableEq

/-- The method `LightParams::initMatrices`. -/
def LightParams.initMatrices (G : GlmFns K) (light : LightParams K) : LightParams K :=
  let light := { light with position := ⟨0, 10, 0⟩ }
  let light := { light with Intensity := ⟨1, 1, 1⟩ }
  let light := { light with forward := Vec3.splat 0 }
  let light := { light with Bias := (Mat4.ofScalars
    (1 / 2) 0 0 0
    0 (1 / 2) 0 0
    0 0 (1 / 2) 0
    (1 / 2) (1 / 2) (1 / 2) 1) }
  let light := { light with Projection := G.perspective 45 (800 / 800) (1 / 10) 100 }
  let light := { light with View := G.lookAt light.position ⟨0, 0, 0⟩ ⟨0, 0, 1⟩ }
  { light with S := light.Bias * (light.Projection * light.View) }

/-- The method `LightParams::recaliberate`. -/
def LightParams.recaliberate (G : GlmFns K) (light : LightParams K) : LightParams K :=
  let light := { light with View := G.lookAt light.position light.forward ⟨0, 1, 0⟩ }
  { light with S := light.Bias * (light.Projection * light.View) }

/-- The function `key_callback`, acting on the global `light` (the window
argument is not used by the body). -/
def key_callback (G : GlmFns K) (light : LightParams K)
    (key scancode action mods : Int) : LightParams K :=
  if action = GLFW_PRESS ∨ action = GLFW_REPEAT then
    let light := if key = GLFW_KEY_W then
      { light with position := light.position + (⟨0, 0, -1⟩ : Vec3 K) * (speed : K) } else light
    let light := if key = GLFW_KEY_S then
      { light with position := light.position + (⟨0, 0, 1⟩ : Vec3 K) * (speed : K) } else light
    let light := if key = GLFW_KEY_D then
      { light with position := light.position + (⟨1, 0, 0⟩ : Vec3 K) * (speed : K) } else light
    let light := if key = GLFW_KEY_A then
      { light with position := light.position + (⟨-1, 0, 0⟩ : Vec3 K) * (speed : K) } else light
    let light := if key = GLFW_KEY_SPACE then
      { light with position := light.position + (⟨0, 1, 0⟩ : Vec3 K) * (speed : K) } else light
    let light := if key = GLFW_KEY_LEFT_SHIFT ∧ light.position.y > 10 then
      { light with position := light.position + (⟨0, -1, 0⟩ : Vec3 K) * (speed : K) } else light
    let light := if key = GLFW_KEY_R then
      { light with position := ⟨1 / 10, 10, 0⟩ } else light
    light.recaliberate G
  else
    light

/-- The global `light` before `setup` runs: static storage, all zero. -/
def LightParams.zero : LightParams K :=
  ⟨Vec3.splat 0, Vec3.splat 0, Vec3.splat 0, Mat4.diag 0, Mat4.diag 0, Mat4.diag 0, Mat4.diag 0⟩

/-- A key event as GLFW delivers it to the callback. -/
structure KeyEvent where
  key : Int
  scancode : Int
  action : Int
  mods : Int
  deriving DecidableEq, Repr

/-- The light after GLFW has delivered a sequence of key events, oldest first. -/
def handleKeys (G : GlmFns K) (light : LightParams K) (events : List KeyEvent) : LightParams K :=
  events.foldl (fun l e => key_callback G l e.key e.scancode e.action e.mods) light

end Light

/-! ## Sphere tessellation -/

/-- The struct `VertexFormat` (`GLIncludes.h`). -/
structure VertexFormat (K : Type) where
  color : Vec4 K
  position : Vec3 K
  normal : Vec3 K
  deriving DecidableEq, Repr

section Geometry

variable {K : Type} [LinearOrderedField K]

/-- The macro `PI` (`3.14159265`). -/
def PI : K := 314159265 / 100000000

/-- The default constructor of `VertexFormat`. -/
def VertexFormat.default : VertexFormat K := ⟨⟨0, 0, 0, 0⟩, Vec3.splat 0, Vec3.splat 0⟩

/-- The body of the inner `for` loop of `createGeometry`: the six vertices it
pushes on the cell at (`pitch`, `yaw`).  `sin` and `cos` are the `<cmath>`
functions. -/
def createGeometry.cell (sin cos : K → K) (radius pitchDelta yawDelta : K) (color : Vec4 K)
    (pitch yaw : K) : List (VertexFormat K) :=
  let p1 : VertexFormat K := VertexFormat.default
  let p2 : VertexFormat K := VertexFormat.default
  let p3 : VertexFormat K := VertexFormat.default
  let p4 : VertexFormat K := VertexFormat.default
  let p1 := { p1 with position := ⟨radius * sin (pitch * PI / 180) * cos (yaw * PI / 180),
                                    radius * sin (pitch * PI / 180) * sin (yaw * PI / 180),
                                    radius * cos (pitch * PI / 180)⟩ }
  let p1 := { p1 with normal := p1.position }
  let p1 := { p1 with color := color }
  let p2 := { p2 with position :=
    ⟨radius * sin (pitch * PI / 180) * cos ((yaw + yawDelta) * PI / 180),
     radius * sin (pitch * PI / 180) * sin ((yaw + yawDelta) * PI / 180),
     radius * cos (pitch * PI / 180)⟩ }
  let p2 := { p2 with normal := p2.position }
  let p2 := { p2 with color := color }
  let p3 := { p3 with position :=
    ⟨radius * sin ((pitch + pitchDelta) * PI / 180) * cos ((yaw + yawDelta) * PI / 180),
     radius * sin ((pitch + pitchDelta) * PI / 180) * sin ((yaw + yawDelta) * PI / 180),
     radius * cos ((pitch + pitchDelta) * PI / 180)⟩ }
  let p3 := { p3 with normal := p3.position }
  let p3 := { p3 with color := color }
  let p4 := { p4 with position :=
    ⟨radius * sin ((pitch + pitchDelta) * PI / 180) * cos (yaw * PI / 180),
     radius * sin ((pitch + pitchDelta) * PI / 180) * sin (yaw * PI / 180),
     radius * cos ((pitch + pitchDelta) * PI / 180)⟩ }
  let p4 := { p4 with normal := p4.position }
  let p4 := { p4 with color := color }
  [p1, p2, p3, p1, p3, p4]

/-- The inner loop `for (j = 0; j < DIVISIONS; j++)` of `createGeometry`: the
state is (`yaw`, `vertices`). -/
def createGeometry.inner (sin cos : K → K) (radius pitchDelta yawDelta : K) (color : Vec4 K)
    (pitch : K) (s : K × List (VertexFormat K)) : K × List (VertexFormat K) :=
  (List.range DIVISIONS).foldl
    (fun s _ => (s.1 + yawDelta,
      s.2 ++ createGeometry.cell sin cos radius pitchDelta yawDelta color pitch s.1))
    s

/-- The outer loop `for (i = 0; i < DIVISIONS; i++)` of `createGeometry`: the
state is (`pitch`, (`yaw`, `vertices`)).  `yaw` is not reset between rows. -/
def createGeometry.outer (sin cos : K → K) (radius pitchDelta yawDelta : K) (color : Vec4 K)
    (s : K × K × List (VertexFormat K)) : K × K × List (VertexFormat K) :=
  (List.range DIVISIONS).foldl
    (fun s _ =>
      (s.1 + pitchDelta,
       createGeometry.inner sin cos radius pitchDelta yawDelta color s.1 s.2))
    s

/-- The vertex list `vertices` that `createGeometry` has built when its loops
finish. -/
def createGeometry.vertices (sin cos : K → K) : List (VertexFormat K) :=
  let radius : K := 1 / 2
  let yaw : K := 0
  let pitch : K := 0
  let pitchDelta : K := ((360 / DIVISIONS : Nat) : K)
  let yawDelta : K := ((360 / DIVISIONS : Nat) : K)
  let color : Vec4 K := ⟨3 / 10, 2 / 10, 7 / 10, 2⟩
  (createGeometry.outer sin cos radius pitchDelta yawDelta color (pitch, yaw, [])).2.2

end Geometry

/-! ## OpenGL: constants (`glew.h`) and the calls the program makes -/

def GL_NONE : Nat := 0
def GL_FALSE : Nat := 0
def GL_TRIANGLES : Nat := 0x0004
def GL_DEPTH_BUFFER_BIT : Nat := 0x00000100
def GL_COLOR_BUFFER_BIT : Nat := 0x00004000
def GL_LESS : Nat := 0x0201
def GL_FRONT : Nat := 0x0404
def GL_BACK : Nat := 0x0405
def GL_TEXTURE_2D : Nat := 0x0DE1
def GL_TEXTURE_BORDER_COLOR : Nat := 0x1004
def GL_NEAREST : Nat := 0x2600
def GL_TEXTURE_MAG_FILTER : Nat := 0x2800
def GL_TEXTURE_MIN_FILTER : Nat := 0x2801
def GL_TEXTURE_WRAP_S : Nat := 0x2802
def GL_TEXTURE_WRAP_T : Nat := 0x2803
def GL_POLYGON_OFFSET_FILL : Nat := 0x8037
def GL_CLAMP_TO_BORDER : Nat := 0x812D
def GL_DEPTH_COMPONENT32 : Nat := 0x81A7
def GL_TEXTURE0 : Nat := 0x84C0
def GL_TEXTURE_COMPARE_MODE : Nat := 0x884C
def GL_TEXTURE_COMPARE_FUNC : Nat := 0x884D
def GL_COMPARE_REF_TO_TEXTURE : Nat := 0x884E
def GL_ARRAY_BUFFER : Nat := 0x8892
def GL_FRAMEBUFFER_COMPLETE : Nat := 0x8CD5
def GL_DEPTH_ATTACHMENT : Nat := 0x8D00
def GL_FRAMEBUFFER : Nat := 0x8D40

/-- One OpenGL call with its arguments (pointers are replaced by the values
they point to; for `glGen*` the value is the name the call wrote back). -/
inductive GLCmd (K : Type) where
  | glEnable (cap : Nat)
  | glDisable (cap : Nat)
  | glGenFramebuffers (n : Nat) (name : Nat)
  | glBindFramebuffer (target : Nat) (framebuffer : Nat)
  | glGenTextures (n : Nat) (name : Nat)
  | glBindTexture (target : Nat) (texture : Nat)
  | glTexStorage2D (target levels internalformat : Nat) (width height : K)
  | glTexParameteri (target pname param : Nat)
  | glTexParameterfv (target pname : Nat) (params : List K)
  | glActiveTexture (texture : Nat)
  | glFramebufferTexture2D (target attachment textarget texture : Nat) (level : Int)
  | glDrawBuffers (n : Nat) (bufs : List Nat)
  | glUseProgram (program : Nat)
  | glPolygonOffset (factor units : K)
  | glClear (mask : Nat)
  | glClearColor (red green blue alpha : K)
  | glViewport (x y width height : Int)
  | glCullFace (mode : Nat)
  | glUniformMatrix4fv (location count transpose : Nat) (value : Mat4 K)
  | glUniformMatrix3fv (location count transpose : Nat) (value : Mat3 K)
  | glUniform3fv (location count : Nat) (value : Vec3 K)
  | glBindVertexArray (array : Nat)
  | glBindBuffer (target buffer : Nat)
  | glDrawArrays (mode : Nat) (first : Int) (count : Nat)
  deriving DecidableEq, Repr

/-- The name of the OpenGL function a call invokes. -/
def GLCmd.name {K : Type} : GLCmd K → String
  | .glEnable .. => "glEnable"
  | .glDisable .. => "glDisable"
  | .glGenFramebuffers .. => "glGenFramebuffers"
  | .glBindFramebuffer .. => "glBindFramebuffer"
  | .glGenTextures .. => "glGenTextures"
  | .glBindTexture .. => "glBindTexture"
  | .glTexStorage2D .. => "glTexStorage2D"
  | .glTexParameteri .. => "glTexParameteri"
  | .glTexParameterfv .. => "glTexParameterfv"
  | .glActiveTexture .. => "glActiveTexture"
  | .glFramebufferTexture2D .. => "glFramebufferTexture2D"
  | .glDrawBuffers .. => "glDrawBuffers"
  | .glUseProgram .. => "glUseProgram"
  | .glPolygonOffset .. => "glPolygonOffset"
  | .glClear .. => "glClear"
  | .glClearColor .. => "glClearColor"
  | .glViewport .. => "glViewport"
  | .glCullFace .. => "glCullFace"
  | .glUniformMatrix4fv .. => "glUniformMatrix4fv"
  | .glUniformMatrix3fv .. => "glUniformMatrix3fv"
  | .glUniform3fv .. => "glUniform3fv"
  | .glBindVertexArray .. => "glBindVertexArray"
  | .glBindBuffer .. => "glBindBuffer"
  | .glDrawArrays .. => "glDrawArrays"

/-! ## Program state -/

/-- The struct `shaderParams`: handles of the uniforms of the render shader. -/
structure shaderParams where
  vec3_LightPos : Nat
  vec3_LightIntensity : Nat
  mat4_MVP : Nat
  mat4_ModelViewMatrix : Nat
  mat3_NormalMatrix : Nat
  mat4_ShadowMatrix : Nat
  deriving DecidableEq, Repr

/-- The member `base` of the scene objects (declared in `BasicFunctions.h`):
the vertex array, the vertex buffer and the vertex count. -/
structure DrawBase where
  vao : Nat
  vbo : Nat
  numberOfVertices : Nat
  deriving DecidableEq, Repr

/-- The type of the globals `sphere1` and `sphere2` (declared in
`BasicFunctions.h`), with the members `main.cpp` uses. -/
structure Sphere (K : Type) where
  base : DrawBase
  origin : Vec3 K
  radius : K
  MVP : Mat4 K
  ModelView : Mat4 K
  NormalMatrix : Mat3 K
  deriving DecidableEq, Repr

/-- The type of the global `plane` (declared in `BasicFunctions.h`), with the
members `main.cpp` uses. -/
structure Plane (K : Type) where
  base : DrawBase
  numberOfVertices : Nat
  origin : Vec3 K
  MVP : Mat4 K
  ModelView : Mat4 K
  NormalMatrix : Mat3 K
  deriving DecidableEq, Repr

/-- The globals of the program, with the OpenGL calls issued so far (`gl`) and
the text written to `std::cout` so far (`console`). -/
structure Program (K : Type) where
  depthTex : Nat
  fboHandle : Nat
  PV : Mat4 K
  uniforms : shaderParams
  light : LightParams K
  program : Nat
  renderProgram : Nat
  uniMVP : Nat
  sphere1 : Sphere K
  sphere2 : Sphere K
  plane : Plane K
  gl : List (GLCmd K)
  console : List String
  deriving DecidableEq

/-- What the program obtains from outside `main.cpp`: the library functions
that are not embedded, the values OpenGL queries return, and the two
`initBuffer` methods of `BasicFunctions.h`. -/
structure Env (K : Type) where
  /-- The glm functions taken as given. -/
  glm : GlmFns K
  /-- The function `sin` of `<cmath>`. -/
  sin : K → K
  /-- The function `cos` of `<cmath>`. -/
  cos : K → K
  /-- The name `glGenFramebuffers(1, &fboHandle)` writes to `fboHandle`. -/
  glGenFramebuffers : Nat
  /-- The name `glGenTextures(1, &depthTex)` writes to `depthTex`. -/
  glGenTextures : Nat
  /-- The value of `glCheckFramebufferStatus(target)`. -/
  glCheckFramebufferStatus : Nat → Nat
  /-- The value of `glGetUniformLocation(program, name)`, a `GLint`. -/
  glGetUniformLocation : Nat → String → Int
  /-- The method `base.initBuffer(numVertices, vertices)` of a sphere: the
  updated `base` and the OpenGL calls made. -/
  initBuffer : DrawBase → Nat → List (VertexFormat K) → DrawBase × List (GLCmd K)
  /-- The method `plane.initBuffer()`: the updated plane and the OpenGL calls
  made. -/
  planeInitBuffer : Plane K → Plane K × List (GLCmd K)

section Setup

variable {K : Type} [LinearOrderedField K]

/-- Conversion of a `GLint` to the `GLuint` it is stored in. -/
def toGLuint (i : Int) : Nat := (i % 2 ^ 32).toNat

/-- The method `shaderParams::initUniforms`, acting on the global `uniforms`. -/
def shaderParams.initUniforms (E : Env K) (programID : Nat) (st : Program K) : Program K :=
  let st := { st with gl := st.gl ++ [GLCmd.glUseProgram programID] }
  let st := { st with uniforms := { st.uniforms with
    vec3_LightPos := toGLuint (E.glGetUniformLocation programID "pointLight.position") } }
  let st := { st with uniforms := { st.uniforms with
    vec3_LightIntensity := toGLuint (E.glGetUniformLocation programID "pointLight.Intensity") } }
  let st := { st with uniforms := { st.uniforms with
    mat4_MVP := toGLuint (E.glGetUniformLocation programID "MVP") } }
  let st := { st with uniforms := { st.uniforms with
    mat4_ModelViewMatrix := toGLuint (E.glGetUniformLocation programID "ModelViewMatrix") } }
  let st := { st with uniforms := { st.uniforms with
    mat3_NormalMatrix := toGLuint (E.glGetUniformLocation programID "NormalMatrix") } }
  { st with uniforms := { st.uniforms with
    mat4_ShadowMatrix := toGLuint (E.glGetUniformLocation programID "ShadowMatrix") } }

/-- The function `createGeometry`. -/
def createGeometry (E : Env K) (st : Program K) : Program K :=
  let vertices := createGeometry.vertices E.sin E.cos
  let radius : K := 1 / 2
  let r1 := E.initBuffer st.sphere1.base vertices.length vertices
  let st := { st with sphere1 := { st.sphere1 with base := r1.1 }, gl := st.gl ++ r1.2 }
  let r2 := E.initBuffer st.sphere2.base vertices.length vertices
  let st := { st with sphere2 := { st.sphere2 with base := r2.1 }, gl := st.gl ++ r2.2 }
  let st := { st with sphere1 := { st.sphere1 with origin := Vec3.splat 0 } }
  let st := { st with sphere2 := { st.sphere2 with origin := ⟨-1, 0, -2⟩ } }
  let st := { st with sphere1 := { st.sphere1 with radius := radius } }
  { st with sphere2 := { st.sphere2 with radius := radius } }

/-- The function `setFrameBUffer`.  The second call of
`glCheckFramebufferStatus` supplies the number printed after the message. -/
def setFrameBUffer (E : Env K) (st : Program K) : Program K :=
  let border : List K := [1, 0, 0, 0]
  let st := { st with gl := st.gl ++ [GLCmd.glEnable GL_TEXTURE_2D] }
  let st := { st with fboHandle := E.glGenFramebuffers,
                      gl := st.gl ++ [GLCmd.glGenFramebuffers 1 E.glGenFramebuffers] }
  let st := { st with gl := st.gl ++ [GLCmd.glBindFramebuffer GL_FRAMEBUFFER st.fboHandle] }
  let st := { st with depthTex := E.glGenTextures,
                      gl := st.gl ++ [GLCmd.glGenTextures 1 E.glGenTextures] }
  let st := { st with gl := st.gl ++ [
    GLCmd.glBindTexture GL_TEXTURE_2D st.depthTex,
    GLCmd.glTexStorage2D GL_TEXTURE_2D 1 GL_DEPTH_COMPONENT32 TextureSize TextureSize,
    GLCmd.glTexParameteri GL_TEXTURE_2D GL_TEXTURE_MAG_FILTER GL_NEAREST,
    GLCmd.glTexParameteri GL_TEXTURE_2D GL_TEXTURE_MIN_FILTER GL_NEAREST,
    GLCmd.glTexParameteri GL_TEXTURE_2D GL_TEXTURE_WRAP_S GL_CLAMP_TO_BORDER,
    GLCmd.glTexParameteri GL_TEXTURE_2D GL_TEXTURE_WRAP_T GL_CLAMP_TO_BORDER,
    GLCmd.glTexParameterfv GL_TEXTURE_2D GL_TEXTURE_BORDER_COLOR border,
    GLCmd.glTexParameteri GL_TEXTURE_2D GL_TEXTURE_COMPARE_MODE GL_COMPARE_REF_TO_TEXTURE,
    GLCmd.glTexParameteri GL_TEXTURE_2D GL_TEXTURE_COMPARE_FUNC GL_LESS,
    GLCmd.glActiveTexture GL_TEXTURE0,
    GLCmd.glBindTexture GL_TEXTURE_2D st.depthTex,
    GLCmd.glFramebufferTexture2D GL_FRAMEBUFFER GL_DEPTH_ATTACHMENT GL_TEXTURE_2D st.depthTex 0] }
  let drawbuf : List Nat := [GL_NONE]
  let st := { st with gl := st.gl ++ [GLCmd.glDrawBuffers 1 drawbuf] }
  let st := if E.glCheckFramebufferStatus GL_FRAMEBUFFER ≠ GL_FRAMEBUFFER_COMPLETE then
      { st with console := st.console ++
          ["Frame buffer not created. \n", toString (E.glCheckFramebufferStatus GL_FRAMEBUFFER)] }
    else st
  { st with gl := st.gl ++ [GLCmd.glBindFramebuffer GL_FRAMEBUFFER 0] }

/-- The function `setup`. -/
def setup (E : Env K) (st : Program K) : Program K :=
  let st := setFrameBUffer E st
  let st := createGeometry E st
  let r := E.planeInitBuffer st.plane
  let st := { st with plane := r.1, gl := st.gl ++ r.2 }
  let view : Mat4 K := E.glm.lookAt ⟨0, 1, 3⟩ ⟨0, 0, 0⟩ ⟨0, 1, 0⟩
  let proj : Mat4 K := E.glm.perspective 45 (800 / 800) (1 / 10) 100
  let st := { st with PV := proj * view }
  let st := { st with sphere1 := { st.sphere1 with
    MVP := st.PV * translate (Mat4.diag 1) st.sphere1.origin } }
  let st := { st with sphere1 := { st.sphere1 with
    ModelView := view * translate (Mat4.diag 1) st.sphere1.origin } }
  let st := { st with sphere1 := { st.sphere1 with
    NormalMatrix := (E.glm.inverse (Mat3.ofMat4 st.sphere1.ModelView)).transpose } }
  let st := { st with sphere2 := { st.sphere2 with
    MVP := st.PV * translate (Mat4.diag 1) st.sphere2.origin } }
  let st := { st with sphere2 := { st.sphere2 with
    ModelView := view * translate (Mat4.diag 1) st.sphere2.origin } }
  let st := { st with sphere2 := { st.sphere2 with
    NormalMatrix := (E.glm.inverse (Mat3.ofMat4 st.sphere2.ModelView)).transpose } }
  let st := { st with plane := { st.plane with
    MVP := st.PV * translate (Mat4.diag 1) st.plane.origin } }
  let st := { st with plane := { st.plane with
    ModelView := view * translate (Mat4.diag 1) st.plane.origin } }
  let st := { st with plane := { st.plane with
    NormalMatrix := (E.glm.inverse (Mat3.ofMat4 st.plane.ModelView)).transpose } }
  let st := { st with light := st.light.initMatrices E.glm }
  shaderParams.initUniforms E st.renderProgram st

end Setup

/-! ## The frame -/

section Frame

variable {K : Type} [LinearOrderedField K]

/-- The function `firstDrawPass`: the OpenGL calls it makes, in order. -/
def firstDrawPass (st : Program K) : List (GLCmd K) :=
  let PV : Mat4 K := st.light.Projection * st.light.View
  let MVPplane : Mat4 K := PV * translate (Mat4.diag 1) st.plane.origin
  let MVPsphere1 : Mat4 K := PV * translate (Mat4.diag 1) st.sphere1.origin
  let MVPsphere2 : Mat4 K := PV * translate (Mat4.diag 1) st.sphere2.origin
  [ GLCmd.glUseProgram st.program,
    GLCmd.glEnable GL_POLYGON_OFFSET_FILL,
    GLCmd.glPolygonOffset 1 1,
    GLCmd.glBindFramebuffer GL_FRAMEBUFFER st.fboHandle,
    GLCmd.glClear GL_DEPTH_BUFFER_BIT,
    GLCmd.glViewport 0 0 WindowSize WindowSize,
    GLCmd.glCullFace GL_FRONT,
    GLCmd.glUniformMatrix4fv st.uniMVP 1 GL_FALSE MVPplane,
    GLCmd.glBindVertexArray st.plane.base.vao,
    GLCmd.glBindBuffer GL_ARRAY_BUFFER st.plane.base.vbo,
    GLCmd.glDrawArrays GL_TRIANGLES 0 st.plane.numberOfVertices,
    GLCmd.glUniformMatrix4fv st.uniMVP 1 GL_FALSE MVPsphere1,
    GLCmd.glBindVertexArray st.sphere1.base.vao,
    GLCmd.glBindBuffer GL_ARRAY_BUFFER st.sphere1.base.vbo,
    GLCmd.glDrawArrays GL_TRIANGLES 0 st.sphere1.base.numberOfVertices,
    GLCmd.glUniformMatrix4fv st.uniMVP 1 GL_FALSE MVPsphere2,
    GLCmd.glBindVertexArray st.sphere2.base.vao,
    GLCmd.glBindBuffer GL_ARRAY_BUFFER st.sphere2.base.vbo,
    GLCmd.glDrawArrays GL_TRIANGLES 0 st.sphere2.base.numberOfVertices,
    GLCmd.glDisable GL_POLYGON_OFFSET_FILL ]

/-- The function `secondDrawPass`: the OpenGL calls it makes, in order. -/
def secondDrawPass (st : Program K) : List (GLCmd K) :=
  let shadowMat1 : Mat4 K := st.light.S * translate (Mat4.diag 1) st.sphere1.origin
  let shadowMat2 : Mat4 K := st.light.S * translate (Mat4.diag 1) st.sphere2.origin
  let shadowMat3 : Mat4 K := st.light.S * translate (Mat4.diag 1) st.plane.origin
  [ GLCmd.glBindFramebuffer GL_FRAMEBUFFER 0,
    GLCmd.glClear GL_DEPTH_BUFFER_BIT,
    GLCmd.glUseProgram st.renderProgram,
    GLCmd.glViewport 0 0 WindowSize WindowSize,
    GLCmd.glCullFace GL_BACK,
    GLCmd.glActiveTexture GL_TEXTURE0,
    GLCmd.glBindTexture GL_TEXTURE_2D st.depthTex,
    GLCmd.glUniform3fv st.uniforms.vec3_LightPos 1 st.light.position,
    GLCmd.glUniform3fv st.uniforms.vec3_LightIntensity 1 st.light.Intensity,
    GLCmd.glUniformMatrix4fv st.uniforms.mat4_MVP 1 GL_FALSE st.sphere1.MVP,
    GLCmd.glUniformMatrix4fv st.uniforms.mat4_ModelViewMatrix 1 GL_FALSE st.sphere1.ModelView,
    GLCmd.glUniformMatrix3fv st.uniforms.mat3_NormalMatrix 1 GL_FALSE st.sphere1.NormalMatrix,
    GLCmd.glUniformMatrix4fv st.uniforms.mat4_ShadowMatrix 1 GL_FALSE shadowMat1,
    GLCmd.glBindVertexArray st.sphere1.base.vao,
    GLCmd.glBindBuffer GL_ARRAY_BUFFER st.sphere1.base.vbo,
    GLCmd.glDrawArrays GL_TRIANGLES 0 st.sphere1.base.numberOfVertices,
    GLCmd.glUniformMatrix4fv st.uniforms.mat4_MVP 1 GL_FALSE st.sphere2.MVP,
    GLCmd.glUniformMatrix4fv st.uniforms.mat4_ModelViewMatrix 1 GL_FALSE st.sphere2.ModelView,
    GLCmd.glUniformMatrix3fv st.uniforms.mat3_NormalMatrix 1 GL_FALSE st.sphere2.NormalMatrix,
    GLCmd.glUniformMatrix4fv st.uniforms.mat4_ShadowMatrix 1 GL_FALSE shadowMat2,
    GLCmd.glBindVertexArray st.sphere2.base.vao,
    GLCmd.glBindBuffer GL_ARRAY_BUFFER st.sphere2.base.vbo,
    GLCmd.glDrawArrays GL_TRIANGLES 0 st.sphere2.base.numberOfVertices,
    GLCmd.glUniformMatrix4fv st.uniforms.mat4_MVP 1 GL_FALSE st.plane.MVP,
    GLCmd.glUniformMatrix4fv st.uniforms.mat4_ModelViewMatrix 1 GL_FALSE st.plane.ModelView,
    GLCmd.glUniformMatrix3fv st.uniforms.mat3_NormalMatrix 1 GL_FALSE st.plane.NormalMatrix,
    GLCmd.glUniformMatrix4fv st.uniforms.mat4_ShadowMatrix 1 GL_FALSE shadowMat3,
    GLCmd.glBindVertexArray st.plane.base.vao,
    GLCmd.glBindBuffer GL_ARRAY_BUFFER st.plane.base.vbo,
    GLCmd.glDrawArrays GL_TRIANGLES 0 st.plane.numberOfVertices ]

/-- The function `renderScene`: the OpenGL calls of one frame, in order. -/
def renderScene (st : Program K) : List (GLCmd K) :=
  [ GLCmd.glClear GL_COLOR_BUFFER_BIT,
    GLCmd.glClearColor 1 1 1 1 ]
  ++ firstDrawPass st
  ++ secondDrawPass st

end Frame

/-! ## What OpenGL does with the calls

The part of the OpenGL state machine the frame depends on: the framebuffer
bound to `GL_FRAMEBUFFER`, the program in use, the bound vertex array, and the
last `mat4` uploaded to each uniform location of each program. -/

/-- The tracked part of the OpenGL context. -/
structure GLState (K : Type) where
  framebuffer : Nat
  program : Nat
  vertexArray : Nat
  mat4 : Nat → Nat → Option (Mat4 K)

/-- What a `glDrawArrays` call draws with: the framebuffer drawn into, the
program, the vertex array, the vertex count and the `mat4` uniforms of the
program at the time of the call. -/
structure DrawCall (K : Type) where
  framebuffer : Nat
  program : Nat
  vertexArray : Nat
  count : Nat
  mat4 : Nat → Option (Mat4 K)

/-- The calls that touch a framebuffer's contents. -/
inductive GLEvent (K : Type) where
  | clear (framebuffer : Nat) (mask : Nat)
  | draw (call : DrawCall K)

/-- A draw or clear reduced to the framebuffer it acts on and either the clear
mask (`Sum.inl`) or the vertex array drawn (`Sum.inr`). -/
def GLEvent.target {K : Type} : GLEvent K → Nat × (Nat ⊕ Nat)
  | .clear fb mask => (fb, Sum.inl mask)
  | .draw c => (c.framebuffer, Sum.inr c.vertexArray)

/-- The effect of one call on the tracked state, and the draw or clear it
performs, if any. -/
def GLState.exec {K : Type} (g : GLState K) : GLCmd K → GLState K × Option (GLEvent K)
  | .glBindFramebuffer target fb =>
      (if target = GL_FRAMEBUFFER then { g with framebuffer := fb } else g, none)
  | .glUseProgram p => ({ g with program := p }, none)
  | .glBindVertexArray a => ({ g with vertexArray := a }, none)
  | .glUniformMatrix4fv loc _ _ m =>
      ({ g with mat4 := fun p l => if p = g.program ∧ l = loc then some m else g.mat4 p l }, none)
  | .glClear mask => (g, some (.clear g.framebuffer mask))
  | .glDrawArrays _ _ count =>
      (g, some (.draw ⟨g.framebuffer, g.program, g.vertexArray, count, g.mat4 g.program⟩))
  | _ => (g, none)

/-- Runs a trace of calls from state `g`: the final state and the draws and
clears performed, in order. -/
def GLState.run {K : Type} (g : GLState K) : List (GLCmd K) → GLState K × List (GLEvent K)
  | [] => (g, [])
  | c :: cs =>
      let r := g.exec c
      let rest := r.1.run cs
      (rest.1, r.2.toList ++ rest.2)

/-! ## Predicates used to state the properties, and sample inputs -/

/-- Key `key` repositions the light: some light state and some press or repeat
event with that key make `key_callback` change `light.position`. -/
def Repositions (K : Type) [LinearOrderedField K] (key : Int) : Prop :=
  ∃ (G : GlmFns K) (light : LightParams K) (scancode action mods : Int),
    (action = GLFW_PRESS ∨ action = GLFW_REPEAT) ∧
    (key_callback G light key scancode action mods).position ≠ light.position

/-- The keys `key_callback` tests for. -/
def lightKeys : Finset Int :=
  {GLFW_KEY_W, GLFW_KEY_A, GLFW_KEY_S, GLFW_KEY_D, GLFW_KEY_SPACE, GLFW_KEY_LEFT_SHIFT,
   GLFW_KEY_R}

/-- Rational stand-ins for the glm functions taken as given, for evaluating
the program on examples: `lookAt` keeps only the translation to the eye,
`perspective` is the identity and `inverse` returns its argument. -/
def GlmFns.sample : GlmFns ℚ where
  lookAt := fun eye _ _ => translate (Mat4.diag 1) (Vec3.splat 0 - eye)
  perspective := fun _ _ _ _ => Mat4.diag 1
  inverse := fun m => m

/-- The light as `setup` leaves it, over the rationals. -/
def LightParams.sample : LightParams ℚ :=
  LightParams.initMatrices GlmFns.sample LightParams.zero

/-- A sample environment: framebuffer 1 and texture 2 are generated, the
framebuffer is reported complete, every uniform is at location 0, and the
`initBuffer` methods only record the vertex count. -/
def Env.sample : Env ℚ where
  glm := GlmFns.sample
  sin := fun _ => 0
  cos := fun _ => 1
  glGenFramebuffers := 1
  glGenTextures := 2
  glCheckFramebufferStatus := fun _ => GL_FRAMEBUFFER_COMPLETE
  glGetUniformLocation := fun _ _ => 0
  initBuffer := fun b n _ => ({ b with numberOfVertices := n }, [])
  planeInitBuffer := fun p => (p, [])

/-- A sample program state before `setup`: programs 3 and 4, vertex arrays 5,
6 and 7, everything else zero. -/
def Program.sample : Program ℚ where
  depthTex := 0
  fboHandle := 0
  PV := Mat4.diag 0
  uniforms := ⟨0, 0, 0, 0, 0, 0⟩
  light := LightParams.zero
  program := 3
  renderProgram := 4
  uniMVP := 0
  sphere1 := ⟨⟨5, 5, 0⟩, Vec3.splat 0, 0, Mat4.diag 0, Mat4.diag 0, Mat3.ofMat4 (Mat4.diag 0)⟩
  sphere2 := ⟨⟨6, 6, 0⟩, Vec3.splat 0, 0, Mat4.diag 0, Mat4.diag 0, Mat3.ofMat4 (Mat4.diag 0)⟩
  plane := ⟨⟨7, 7, 6⟩, 6, ⟨0, -1, 0⟩, Mat4.diag 0, Mat4.diag 0, Mat3.ofMat4 (Mat4.diag 0)⟩
  gl := []
  console := []

/-- The height of the light is its starting height plus a whole number of
steps of `speed`. -/
def OnHeightGrid {K : Type} [LinearOrderedField K] (light : LightParams K) : Prop :=
  ∃ n : ℕ, light.position.y = 10 + (n : K) * (3 / 10)

/-- The tracked OpenGL state of a fresh context. -/
def GLState.initial (K : Type) : GLState K := ⟨0, 0, 0, fun _ _ => none⟩

/-! ## When `lookAt` is defined -/

section LookAt

variable {K : Type} [LinearOrderedField K]

/-- The glm function `cross(x, y)`. -/
def Vec3.cross (x y : Vec3 K) : Vec3 K :=
  ⟨x.y * y.z - y.y * x.z, x.z * y.x - y.z * x.x, x.x * y.y - y.x * x.y⟩

/-- The function `glm::lookAt(eye, center, up)` computes
`f = normalize(center - eye)` and `s = normalize(cross(f, up))`, and
`normalize` divides by the length of its argument.  Both divisions are by a
non-zero length exactly when `center - eye` is not the zero vector and
`cross(center - eye, up)` is not the zero vector (`cross(f, up)` is
`cross(center - eye, up)` divided by the length of `center - eye`). -/
def lookAtDefined (eye center up : Vec3 K) : Prop :=
  center - eye ≠ Vec3.splat 0 ∧ Vec3.cross (center - eye) up ≠ Vec3.splat 0

instance (eye center up : Vec3 K) : Decidable (lookAtDefined eye center up) :=
  inferInstanceAs (Decidable (_ ∧ _))

/-- The light `key_callback` passes to `light.recaliberate()`: the body of
`key_callback` up to that call; `none` when the call is not reached (the
action is neither press nor repeat). -/
def key_callback.recaliberateArg (light : LightParams K)
    (key scancode action mods : Int) : Option (LightParams K) :=
  if action = GLFW_PRESS ∨ action = GLFW_REPEAT then
    let light := if key = GLFW_KEY_W then
      { light with position := light.position + (⟨0, 0, -1⟩ : Vec3 K) * (speed : K) } else light
    let light := if key = GLFW_KEY_S then
      { light with position := light.position + (⟨0, 0, 1⟩ : Vec3 K) * (speed : K) } else light
    let light := if key = GLFW_KEY_D then
      { light with position := light.position + (⟨1, 0, 0⟩ : Vec3 K) * (speed : K) } else light
    let light := if key = GLFW_KEY_A then
      { light with position := light.position + (⟨-1, 0, 0⟩ : Vec3 K) * (speed : K) } else light
    let light := if key = GLFW_KEY_SPACE then
      { light with position := light.position + (⟨0, 1, 0⟩ : Vec3 K) * (speed : K) } else light
    let light := if key = GLFW_KEY_LEFT_SHIFT ∧ light.position.y > 10 then
      { light with position := light.position + (⟨0, -1, 0⟩ : Vec3 K) * (speed : K) } else light
    let light := if key = GLFW_KEY_R then
      { light with position := ⟨1 / 10, 10, 0⟩ } else light
    some light
  else
    none

end LookAt

/-! ## Single-precision arithmetic

The program stores matrices as `float`.  To compare what it computes with what
exact arithmetic gives, IEEE 754 binary32 values are modelled as the rationals
they denote, and each `float` operation as the exact operation followed by
rounding to 24 significant bits, to nearest, ties to even.  Overflow,
subnormal numbers, infinities and NaN are not modelled; none arises at the
values used below. -/

/-- Rounding of a rational to the nearest binary32 value (24 significant
bits, ties to even): with `2 ^ e ≤ |q| < 2 ^ (e + 1)` the result is the
multiple of `2 ^ (e - 23)` nearest to `q`. -/
def F32.round (q : ℚ) : ℚ :=
  if q = 0 then 0 else
    let e : ℤ := Int.log 2 |q|
    let ulp : ℚ := (2 : ℚ) ^ (e - 23)
    let t : ℚ := q / ulp
    let f : ℤ := ⌊t⌋
    let n : ℤ :=
      if t - f < 1 / 2 then f
      else if 1 / 2 < t - f then f + 1
      else if f % 2 = 0 then f else f + 1
    n * ulp

/-- The `float` sum. -/
def F32.add (a b : ℚ) : ℚ := F32.round (a + b)

/-- The `float` product. -/
def F32.mul (a b : ℚ) : ℚ := F32.round (a * b)

/-- Componentwise `vec4 + vec4` on `float`. -/
def F32.vecAdd (a b : Vec4 ℚ) : Vec4 ℚ :=
  ⟨F32.add a.x b.x, F32.add a.y b.y, F32.add a.z b.z, F32.add a.w b.w⟩

/-- Scaling `vec4 * float` on `float`. -/
def F32.vecScale (a : Vec4 ℚ) (s : ℚ) : Vec4 ℚ :=
  ⟨F32.mul a.x s, F32.mul a.y s, F32.mul a.z s, F32.mul a.w s⟩

/-- One column of the glm product `mat4 * mat4` on `float`:
`m[0] * v[0] + m[1] * v[1] + m[2] * v[2] + m[3] * v[3]`, summed left to
right. -/
def F32.mulVec (m : Mat4 ℚ) (v : Vec4 ℚ) : Vec4 ℚ :=
  F32.vecAdd
    (F32.vecAdd (F32.vecAdd (F32.vecScale m.c0 v.x) (F32.vecScale m.c1 v.y))
      (F32.vecScale m.c2 v.z))
    (F32.vecScale m.c3 v.w)

/-- The glm function `translate(m, v)` on `float`. -/
def F32.translate (m : Mat4 ℚ) (v : Vec3 ℚ) : Mat4 ℚ :=
  { m with c3 := (F32.vecAdd
      (F32.vecAdd (F32.vecAdd (F32.vecScale m.c0 v.x) (F32.vecScale m.c1 v.y))
        (F32.vecScale m.c2 v.z))
      m.c3) }

section Lemmas

variable {K : Type} [LinearOrderedField K]

theorem vec3_add_def (a b : Vec3 K) : a + b = ⟨a.x + b.x, a.y + b.y, a.z + b.z⟩ := rfl

theorem vec3_sub_def (a b : Vec3 K) : a - b = ⟨a.x - b.x, a.y - b.y, a.z - b.z⟩ := rfl

theorem vec3_scale_def (a : Vec3 K) (s : K) : a * s = ⟨a.x * s, a.y * s, a.z * s⟩ := rfl

theorem vec4_add_def (a b : Vec4 K) :
    a + b = ⟨a.x + b.x, a.y + b.y, a.z + b.z, a.w + b.w⟩ := rfl

theorem vec4_scale_def (a : Vec4 K) (s : K) : a * s = ⟨a.x * s, a.y * s, a.z * s, a.w * s⟩ := rfl

theorem Mat4.mulVec_def (m : Mat4 K) (v : Vec4 K) :
    m * v = m.c0 * v.x + m.c1 * v.y + m.c2 * v.z + m.c3 * v.w := rfl

/-- The position `key_callback` leaves on a press or repeat event, as one
case distinction on the key (the key codes are pairwise different, so at most
one of the sequential tests of the source fires). -/
theorem key_callback_position (G : GlmFns K) (light : LightParams K)
    (key scancode action mods : Int) (h : action = GLFW_PRESS ∨ action = GLFW_REPEAT) :
    (key_callback G light key scancode action mods).position =
      if key = GLFW_KEY_W then light.position + (⟨0, 0, -1⟩ : Vec3 K) * (speed : K)
      else if key = GLFW_KEY_S then light.position + (⟨0, 0, 1⟩ : Vec3 K) * (speed : K)
      else if key = GLFW_KEY_D then light.position + (⟨1, 0, 0⟩ : Vec3 K) * (speed : K)
      else if key = GLFW_KEY_A then light.position + (⟨-1, 0, 0⟩ : Vec3 K) * (speed : K)
      else if key = GLFW_KEY_SPACE then light.position + (⟨0, 1, 0⟩ : Vec3 K) * (speed : K)
      else if key = GLFW_KEY_LEFT_SHIFT ∧ light.position.y > 10 then
        light.position + (⟨0, -1, 0⟩ : Vec3 K) * (speed : K)
      else if key = GLFW_KEY_R then ⟨1 / 10, 10, 0⟩
      else light.position := by
  unfold key_callback
  rw [if_pos h]
  simp only [LightParams.recaliberate]
  by_cases hW : key = GLFW_KEY_W
  · subst hW
    simp [GLFW_KEY_W, GLFW_KEY_S, GLFW_KEY_D, GLFW_KEY_A, GLFW_KEY_SPACE, GLFW_KEY_LEFT_SHIFT,
      GLFW_KEY_R]
  by_cases hS : key = GLFW_KEY_S
  · subst hS
    simp [GLFW_KEY_W, GLFW_KEY_S, GLFW_KEY_D, GLFW_KEY_A, GLFW_KEY_SPACE, GLFW_KEY_LEFT_SHIFT,
      GLFW_KEY_R]
  by_cases hD : key = GLFW_KEY_D
  · subst hD
    simp [GLFW_KEY_W, GLFW_KEY_S, GLFW_KEY_D, GLFW_KEY_A, GLFW_KEY_SPACE, GLFW_KEY_LEFT_SHIFT,
      GLFW_KEY_R]
  by_cases hA : key = GLFW_KEY_A
  · subst hA
    simp [GLFW_KEY_W, GLFW_KEY_S, GLFW_KEY_D, GLFW_KEY_A, GLFW_KEY_SPACE, GLFW_KEY_LEFT_SHIFT,
      GLFW_KEY_R]
  by_cases hSp : key = GLFW_KEY_SPACE
  · subst hSp
    simp [GLFW_KEY_W, GLFW_KEY_S, GLFW_KEY_D, GLFW_KEY_A, GLFW_KEY_SPACE, GLFW_KEY_LEFT_SHIFT,
      GLFW_KEY_R]
  by_cases hL : key = GLFW_KEY_LEFT_SHIFT
  · subst hL
    by_cases hy : light.position.y > 10 <;>
      simp [hy, GLFW_KEY_W, GLFW_KEY_S, GLFW_KEY_D, GLFW_KEY_A, GLFW_KEY_SPACE,
        GLFW_KEY_LEFT_SHIFT, GLFW_KEY_R]
  by_cases hR : key = GLFW_KEY_R
  · subst hR
    simp [GLFW_KEY_W, GLFW_KEY_S, GLFW_KEY_D, GLFW_KEY_A, GLFW_KEY_SPACE, GLFW_KEY_LEFT_SHIFT,
      GLFW_KEY_R]
  simp [hW, hS, hD, hA, hSp, hL, hR]

/-- On a press or repeat event `key_callback` ends with `recaliberate`, which
writes only `View` and `S`. -/
theorem key_callback_eq_recaliberate (G : GlmFns K) (light : LightParams K)
    (key scancode action mods : Int) (h : action = GLFW_PRESS ∨ action = GLFW_REPEAT) :
    ∃ moved : LightParams K,
      key_callback G light key scancode action mods = moved.recaliberate G ∧
      moved.forward = light.forward ∧ moved.Bias = light.Bias ∧
      moved.Projection = light.Projection ∧ moved.Intensity = light.Intensity := by
  unfold key_callback
  rw [if_pos h]
  refine ⟨_, rfl, ?_⟩
  simp only [apply_ite LightParams.forward, apply_ite LightParams.Bias,
    apply_ite LightParams.Projection, apply_ite LightParams.Intensity, ite_self, and_self]

end Lemmas

/-! ## C1: the shadow matrix after a key event -/

section Claims

variable {K : Type} [LinearOrderedField K]

/-- C1. After `key_callback` has handled a press or repeat event, whatever the
light state and the key, the light's `View` is
`lookAt(position, forward, (0, 1, 0))` for the position as that event left it,
and `S = Bias * (Projection * View)` for that `View`; `Bias`, `Projection` and
`forward` are the ones the light had before the event. -/
theorem key_callback_S_current (G : GlmFns K) (light : LightParams K)
    (key scancode action mods : Int) (h : action = GLFW_PRESS ∨ action = GLFW_REPEAT) :
    (key_callback G light key scancode action mods).View =
        G.lookAt (key_callback G light key scancode action mods).position
          (key_callback G light key scancode action mods).forward ⟨0, 1, 0⟩ ∧
    (key_callback G light key scancode action mods).S =
        (key_callback G light key scancode action mods).Bias *
          ((key_callback G light key scancode action mods).Projection *
            (key_callback G light key scancode action mods).View) ∧
    (key_callback G light key scancode action mods).Bias = light.Bias ∧
    (key_callback G light key scancode action mods).Projection = light.Projection ∧
    (key_callback G light key scancode action mods).forward = light.forward := by
  obtain ⟨moved, hk, hf, hb, hp, -⟩ :=
    key_callback_eq_recaliberate G light key scancode action mods h
  rw [hk]
  simp [LightParams.recaliberate, hf, hb, hp]

end Claims

/-- C1, evaluated: pressing W in the state `setup` leaves moves the light to
`(0, 10, -3/10)` and `S` is rebuilt from the view at that position. -/
theorem key_callback_S_current_witness :
    (GLFW_PRESS = GLFW_PRESS ∨ GLFW_PRESS = GLFW_REPEAT) ∧
    (key_callback GlmFns.sample LightParams.sample GLFW_KEY_W 0 GLFW_PRESS 0).position
      = ⟨0, 10, -3 / 10⟩ ∧
    (key_callback GlmFns.sample LightParams.sample GLFW_KEY_W 0 GLFW_PRESS 0).S =
      LightParams.sample.Bias * (LightParams.sample.Projection *
        GlmFns.sample.lookAt ⟨0, 10, -3 / 10⟩ ⟨0, 0, 0⟩ ⟨0, 1, 0⟩) := by
  have h := key_callback_S_current GlmFns.sample LightParams.sample GLFW_KEY_W 0 GLFW_PRESS 0
    (Or.inl rfl)
  have hp : (key_callback GlmFns.sample LightParams.sample GLFW_KEY_W 0 GLFW_PRESS 0).position
      = ⟨0, 10, -3 / 10⟩ := by
    rw [key_callback_position _ _ _ _ _ _ (Or.inl rfl)]
    simp [LightParams.sample, LightParams.initMatrices, vec3_add_def, vec3_scale_def, speed]
    norm_num
  refine ⟨Or.inl rfl, hp, ?_⟩
  rw [h.2.1, h.1, h.2.2.1, h.2.2.2.1, h.2.2.2.2, hp]
  rfl

/-! ## C2: the shadow matrix of each object -/

section Claims

variable {K : Type} [LinearOrderedField K]

end Claims

section Lemmas

end Lemmas

section Claims

variable {K : Type} [LinearOrderedField K]

/-- C3. The `Bias` matrix `initMatrices` sets sends `(x, y, z, w)` to
`(0.5 x + 0.5 w, 0.5 y + 0.5 w, 0.5 z + 0.5 w, w)`; so for `w = 1` coordinates
in `[-1, 1]` land in `[0, 1]`, the corner `(-1, -1, -1)` on `(0, 0, 0)` and the
corner `(1, 1, 1)` on `(1, 1, 1)`. -/
theorem initMatrices_Bias_clip_to_texture (G : GlmFns K) (light : LightParams K)
    (x y z w : K) :
    (light.initMatrices G).Bias * (⟨x, y, z, w⟩ : Vec4 K) =
      ⟨1 / 2 * x + 1 / 2 * w, 1 / 2 * y + 1 / 2 * w, 1 / 2 * z + 1 / 2 * w, w⟩ ∧
    (w = 1 → -1 ≤ x ∧ x ≤ 1 → -1 ≤ y ∧ y ≤ 1 → -1 ≤ z ∧ z ≤ 1 →
      0 ≤ ((light.initMatrices G).Bias * (⟨x, y, z, w⟩ : Vec4 K)).x ∧
      ((light.initMatrices G).Bias * (⟨x, y, z, w⟩ : Vec4 K)).x ≤ 1 ∧
      0 ≤ ((light.initMatrices G).Bias * (⟨x, y, z, w⟩ : Vec4 K)).y ∧
      ((light.initMatrices G).Bias * (⟨x, y, z, w⟩ : Vec4 K)).y ≤ 1 ∧
      0 ≤ ((light.initMatrices G).Bias * (⟨x, y, z, w⟩ : Vec4 K)).z ∧
      ((light.initMatrices G).Bias * (⟨x, y, z, w⟩ : Vec4 K)).z ≤ 1 ∧
      ((light.initMatrices G).Bias * (⟨x, y, z, w⟩ : Vec4 K)).w = 1) ∧
    (light.initMatrices G).Bias * (⟨-1, -1, -1, 1⟩ : Vec4 K) = ⟨0, 0, 0, 1⟩ ∧
    (light.initMatrices G).Bias * (⟨1, 1, 1, 1⟩ : Vec4 K) = ⟨1, 1, 1, 1⟩ := by
  have key : ∀ a b c d : K, (light.initMatrices G).Bias * (⟨a, b, c, d⟩ : Vec4 K) =
      ⟨1 / 2 * a + 1 / 2 * d, 1 / 2 * b + 1 / 2 * d, 1 / 2 * c + 1 / 2 * d, d⟩ := by
    intro a b c d
    simp only [LightParams.initMatrices, Mat4.ofScalars, Mat4.mulVec_def, vec4_add_def,
      vec4_scale_def, Vec4.mk.injEq]
    refine ⟨?_, ?_, ?_, ?_⟩ <;> ring
  refine ⟨key x y z w, ?_, ?_, ?_⟩
  · rintro rfl ⟨hx0, hx1⟩ ⟨hy0, hy1⟩ ⟨hz0, hz1⟩
    rw [key]
    refine ⟨?_, ?_, ?_, ?_, ?_, ?_, rfl⟩ <;> simp only <;> linarith
  · rw [key]; norm_num
  · rw [key]; norm_num

end Claims

/-- C3, evaluated: the clip-space point `(1/2, -1, 1, 1)` is sent to the
texture-space point `(3/4, 0, 1, 1)`, inside the unit cube. -/
theorem initMatrices_Bias_clip_to_texture_witness :
    LightParams.sample.Bias * (⟨1 / 2, -1, 1, 1⟩ : Vec4 ℚ) = ⟨3 / 4, 0, 1, 1⟩ ∧
    0 ≤ (LightParams.sample.Bias * (⟨1 / 2, -1, 1, 1⟩ : Vec4 ℚ)).x ∧
    (LightParams.sample.Bias * (⟨1 / 2, -1, 1, 1⟩ : Vec4 ℚ)).x ≤ 1 := by
  have h := initMatrices_Bias_clip_to_texture GlmFns.sample LightParams.zero (1 / 2) (-1) 1 1
  have h2 := h.2.1 rfl (by norm_num) (by norm_num) (by norm_num)
  refine ⟨?_, h2.1, h2.2.1⟩
  rw [LightParams.sample, h.1]
  norm_num

/-! ## C4: the keys that reposition the light -/

section Lemmas

variable {K : Type} [LinearOrderedField K]

/-- Each of the seven keys `key_callback` tests for moves the light from
`(0, 11, 0)`. -/
theorem repositions_of_mem_lightKeys (key : Int) (h : key ∈ lightKeys) : Repositions K key := by
  refine ⟨⟨fun _ _ _ => Mat4.diag 1, fun _ _ _ _ => Mat4.diag 1, fun m => m⟩,
    { (LightParams.zero : LightParams K) with position := ⟨0, 11, 0⟩ }, 0, GLFW_PRESS, 0,
    Or.inl rfl, ?_⟩
  rw [key_callback_position _ _ _ _ _ _ (Or.inl rfl)]
  simp only [lightKeys, Finset.mem_insert, Finset.mem_singleton] at h
  rcases h with h | h | h | h | h | h | h <;>
    (subst h
     simp [GLFW_KEY_W, GLFW_KEY_S, GLFW_KEY_D, GLFW_KEY_A, GLFW_KEY_SPACE, GLFW_KEY_LEFT_SHIFT,
       GLFW_KEY_R, vec3_add_def, vec3_scale_def, speed]
     try norm_num)

/-- A key `key_callback` does not test for leaves the position as it was. -/
theorem position_eq_of_not_mem_lightKeys (G : GlmFns K) (light : LightParams K)
    (key scancode action mods : Int) (h : key ∉ lightKeys) :
    (key_callback G light key scancode action mods).position = light.position := by
  by_cases ha : action = GLFW_PRESS ∨ action = GLFW_REPEAT
  · rw [key_callback_position _ _ _ _ _ _ ha]
    simp only [lightKeys, Finset.mem_insert, Finset.mem_singleton, not_or] at h
    obtain ⟨hW, hA, hS, hD, hSp, hL, hR⟩ := h
    simp [hW, hA, hS, hD, hSp, hL, hR]
  · unfold key_callback
    rw [if_neg ha]

theorem lightKeys_card : lightKeys.card = 7 := by decide

end Lemmas

/-- C4, as stated, fails: no set of six key codes is the set of keys that
reposition the light, because W, A, S, D, Space, Left Shift and R all do. -/
theorem six_keys_reposition_counterexample :
    ¬ ∃ keys : Finset Int, keys.card = 6 ∧ ∀ key : Int, key ∈ keys ↔ Repositions ℚ key := by
  rintro ⟨keys, hcard, hkeys⟩
  have hsub : lightKeys ⊆ keys := fun k hk => (hkeys k).2 (repositions_of_mem_lightKeys k hk)
  have := Finset.card_le_card hsub
  rw [lightKeys_card, hcard] at this
  omega

section Claims

variable {K : Type} [LinearOrderedField K]

/-- C4, amended. Exactly seven keys reposition the light: W, A, S, D, Space,
Left Shift and R.  Each of them changes `light.position` in some state on some
press or repeat event, and an event with any other key leaves `light.position`
unchanged in every state. -/
theorem seven_keys_reposition :
    lightKeys.card = 7 ∧
    (∀ key : Int, Repositions K key ↔ key ∈ lightKeys) ∧
    (∀ (G : GlmFns K) (light : LightParams K) (key scancode action mods : Int),
      ¬ (key = GLFW_KEY_W ∨ key = GLFW_KEY_A ∨ key = GLFW_KEY_S ∨ key = GLFW_KEY_D ∨
          key = GLFW_KEY_SPACE ∨ key = GLFW_KEY_LEFT_SHIFT ∨ key = GLFW_KEY_R) →
      (key_callback G light key scancode action mods).position = light.position) := by
  refine ⟨lightKeys_card, fun key => ⟨?_, repositions_of_mem_lightKeys key⟩, ?_⟩
  · rintro ⟨G, light, scancode, action, mods, -, hne⟩
    by_contra hmem
    exact hne (position_eq_of_not_mem_lightKeys G light key scancode action mods hmem)
  · intro G light key scancode action mods hkey
    apply position_eq_of_not_mem_lightKeys
    simpa [lightKeys] using hkey

end Claims

/-- C4 amended, evaluated: R (a key outside W, A, S, D, Space, Left Shift)
moves the light of the initial state to `(1/10, 10, 0)`, and the key `Q`
(code 81) leaves it at `(0, 10, 0)`. -/
theorem seven_keys_reposition_witness :
    (key_callback GlmFns.sample LightParams.sample GLFW_KEY_R 0 GLFW_PRESS 0).position
      = ⟨1 / 10, 10, 0⟩ ∧
    Repositions ℚ GLFW_KEY_R ∧
    (key_callback GlmFns.sample LightParams.sample 81 0 GLFW_PRESS 0).position = ⟨0, 10, 0⟩ := by
  refine ⟨?_, (seven_keys_reposition.2.1 GLFW_KEY_R).2 (by decide), ?_⟩
  · rw [key_callback_position _ _ _ _ _ _ (Or.inl rfl)]
    simp [GLFW_KEY_W, GLFW_KEY_S, GLFW_KEY_D, GLFW_KEY_A, GLFW_KEY_SPACE, GLFW_KEY_LEFT_SHIFT,
      GLFW_KEY_R]
  · rw [seven_keys_reposition.2.2 GlmFns.sample LightParams.sample 81 0 GLFW_PRESS 0 (by decide)]
    rfl

/-! ## C5 and C6: the moves -/

section Claims

variable {K : Type} [LinearOrderedField K]

/-- C5. On a press or repeat event, in every light state, W changes
`light.position` by `(0, 0, -0.3)`, S by `(0, 0, 0.3)`, D by `(0.3, 0, 0)` and
A by `(-0.3, 0, 0)`, each leaving `position.y` as it was; W followed by S, and
A followed by D, give back the position the light started from. -/
theorem wasd_moves_in_xz_plane (G : GlmFns K) (light : LightParams K)
    (scancode action mods scancode2 action2 mods2 : Int)
    (h : action = GLFW_PRESS ∨ action = GLFW_REPEAT)
    (h2 : action2 = GLFW_PRESS ∨ action2 = GLFW_REPEAT) :
    (key_callback G light GLFW_KEY_W scancode action mods).position =
      light.position + ⟨0, 0, -(3 / 10)⟩ ∧
    (key_callback G light GLFW_KEY_S scancode action mods).position =
      light.position + ⟨0, 0, 3 / 10⟩ ∧
    (key_callback G light GLFW_KEY_D scancode action mods).position =
      light.position + ⟨3 / 10, 0, 0⟩ ∧
    (key_callback G light GLFW_KEY_A scancode action mods).position =
      light.position + ⟨-(3 / 10), 0, 0⟩ ∧
    (key_callback G light GLFW_KEY_W scancode action mods).position.y = light.position.y ∧
    (key_callback G light GLFW_KEY_S scancode action mods).position.y = light.position.y ∧
    (key_callback G light GLFW_KEY_D scancode action mods).position.y = light.position.y ∧
    (key_callback G light GLFW_KEY_A scancode action mods).position.y = light.position.y ∧
    (key_callback G (key_callback G light GLFW_KEY_W scancode action mods)
      GLFW_KEY_S scancode2 action2 mods2).position = light.position ∧
    (key_callback G (key_callback G light GLFW_KEY_A scancode action mods)
      GLFW_KEY_D scancode2 action2 mods2).position = light.position := by
  have hW : ∀ (l : LightParams K) (sc ac md : Int), (ac = GLFW_PRESS ∨ ac = GLFW_REPEAT) →
      (key_callback G l GLFW_KEY_W sc ac md).position = l.position + ⟨0, 0, -(3 / 10)⟩ := by
    intro l sc ac md ha
    rw [key_callback_position _ _ _ _ _ _ ha]
    simp [vec3_add_def, vec3_scale_def, speed]
  have hS : ∀ (l : LightParams K) (sc ac md : Int), (ac = GLFW_PRESS ∨ ac = GLFW_REPEAT) →
      (key_callback G l GLFW_KEY_S sc ac md).position = l.position + ⟨0, 0, 3 / 10⟩ := by
    intro l sc ac md ha
    rw [key_callback_position _ _ _ _ _ _ ha]
    simp [GLFW_KEY_W, GLFW_KEY_S, vec3_add_def, vec3_scale_def, speed]
  have hD : ∀ (l : LightParams K) (sc ac md : Int), (ac = GLFW_PRESS ∨ ac = GLFW_REPEAT) →
      (key_callback G l GLFW_KEY_D sc ac md).position = l.position + ⟨3 / 10, 0, 0⟩ := by
    intro l sc ac md ha
    rw [key_callback_position _ _ _ _ _ _ ha]
    simp [GLFW_KEY_W, GLFW_KEY_S, GLFW_KEY_D, vec3_add_def, vec3_scale_def, speed]
  have hA : ∀ (l : LightParams K) (sc ac md : Int), (ac = GLFW_PRESS ∨ ac = GLFW_REPEAT) →
      (key_callback G l GLFW_KEY_A sc ac md).position = l.position + ⟨-(3 / 10), 0, 0⟩ := by
    intro l sc ac md ha
    rw [key_callback_position _ _ _ _ _ _ ha]
    simp [GLFW_KEY_W, GLFW_KEY_S, GLFW_KEY_D, GLFW_KEY_A, vec3_add_def, vec3_scale_def, speed]
  refine ⟨hW _ _ _ _ h, hS _ _ _ _ h, hD _ _ _ _ h, hA _ _ _ _ h, ?_, ?_, ?_, ?_, ?_, ?_⟩
  · rw [hW _ _ _ _ h]; simp [vec3_add_def]
  · rw [hS _ _ _ _ h]; simp [vec3_add_def]
  · rw [hD _ _ _ _ h]; simp [vec3_add_def]
  · rw [hA _ _ _ _ h]; simp [vec3_add_def]
  · rw [hS _ _ _ _ h2, hW _ _ _ _ h]; simp [vec3_add_def]
  · rw [hD _ _ _ _ h2, hA _ _ _ _ h]; simp [vec3_add_def]

/-- C6, amended. On a press or repeat event Space changes `light.position` by
`(0, 0.3, 0)` in every light state; Left Shift changes it by `(0, -0.3, 0)` in
the states with `position.y > 10` and leaves it unchanged in the others; in
every case `position.x` and `position.z` stay as they were. -/
theorem space_shift_move_vertically (G : GlmFns K) (light : LightParams K)
    (scancode action mods : Int) (h : action = GLFW_PRESS ∨ action = GLFW_REPEAT) :
    (key_callback G light GLFW_KEY_SPACE scancode action mods).position =
      light.position + ⟨0, 3 / 10, 0⟩ ∧
    (light.position.y > 10 →
      (key_callback G light GLFW_KEY_LEFT_SHIFT scancode action mods).position =
        light.position + ⟨0, -(3 / 10), 0⟩) ∧
    (¬ light.position.y > 10 →
      (key_callback G light GLFW_KEY_LEFT_SHIFT scancode action mods).position =
        light.position) ∧
    (key_callback G light GLFW_KEY_SPACE scancode action mods).position.x = light.position.x ∧
    (key_callback G light GLFW_KEY_SPACE scancode action mods).position.z = light.position.z ∧
    (key_callback G light GLFW_KEY_LEFT_SHIFT scancode action mods).position.x
      = light.position.x ∧
    (key_callback G light GLFW_KEY_LEFT_SHIFT scancode action mods).position.z
      = light.position.z := by
  have hSp : (key_callback G light GLFW_KEY_SPACE scancode action mods).position =
      light.position + ⟨0, 3 / 10, 0⟩ := by
    rw [key_callback_position _ _ _ _ _ _ h]
    simp [GLFW_KEY_W, GLFW_KEY_S, GLFW_KEY_D, GLFW_KEY_A, GLFW_KEY_SPACE, vec3_add_def,
      vec3_scale_def, speed]
  have hL : (key_callback G light GLFW_KEY_LEFT_SHIFT scancode action mods).position =
      if light.position.y > 10 then light.position + ⟨0, -(3 / 10), 0⟩ else light.position := by
    rw [key_callback_position _ _ _ _ _ _ h]
    simp [GLFW_KEY_W, GLFW_KEY_S, GLFW_KEY_D, GLFW_KEY_A, GLFW_KEY_SPACE, GLFW_KEY_LEFT_SHIFT,
      GLFW_KEY_R, vec3_add_def, vec3_scale_def, speed]
  refine ⟨hSp, ?_, ?_, ?_, ?_, ?_, ?_⟩
  · intro hy; rw [hL, if_pos hy]
  · intro hy; rw [hL, if_neg hy]
  · rw [hSp]; simp [vec3_add_def]
  · rw [hSp]; simp [vec3_add_def]
  · rw [hL]; split <;> simp [vec3_add_def]
  · rw [hL]; split <;> simp [vec3_add_def]

end Claims

/-- C5, evaluated: from `(0, 10, 0)` W leads to `(0, 10, -3/10)`, and S after
W leads back to `(0, 10, 0)`. -/
theorem wasd_moves_in_xz_plane_witness :
    (GLFW_PRESS = GLFW_PRESS ∨ GLFW_PRESS = GLFW_REPEAT) ∧
    (GLFW_REPEAT = GLFW_PRESS ∨ GLFW_REPEAT = GLFW_REPEAT) ∧
    (key_callback GlmFns.sample LightParams.sample GLFW_KEY_W 0 GLFW_PRESS 0).position =
      LightParams.sample.position + ⟨0, 0, -(3 / 10)⟩ ∧
    (key_callback GlmFns.sample
      (key_callback GlmFns.sample LightParams.sample GLFW_KEY_W 0 GLFW_PRESS 0)
      GLFW_KEY_S 0 GLFW_REPEAT 0).position = LightParams.sample.position :=
  ⟨Or.inl rfl, Or.inr rfl,
   (wasd_moves_in_xz_plane GlmFns.sample LightParams.sample 0 GLFW_PRESS 0 0 GLFW_REPEAT 0
      (Or.inl rfl) (Or.inr rfl)).1,
   (wasd_moves_in_xz_plane GlmFns.sample LightParams.sample 0 GLFW_PRESS 0 0 GLFW_REPEAT 0
      (Or.inl rfl) (Or.inr rfl)).2.2.2.2.2.2.2.2.1⟩

/-- C6, as stated, fails: in the state `setup` leaves (light at `(0, 10, 0)`)
a press of Left Shift leaves the light where it is instead of moving it by
`(0, -0.3, 0)`. -/
theorem left_shift_counterexample :
    (key_callback GlmFns.sample LightParams.sample GLFW_KEY_LEFT_SHIFT 0 GLFW_PRESS 0).position
      = ⟨0, 10, 0⟩ ∧
    (key_callback GlmFns.sample LightParams.sample GLFW_KEY_LEFT_SHIFT 0 GLFW_PRESS 0).position
      ≠ LightParams.sample.position + ⟨0, -(3 / 10), 0⟩ := by
  have hp : (key_callback GlmFns.sample LightParams.sample GLFW_KEY_LEFT_SHIFT 0
      GLFW_PRESS 0).position = ⟨0, 10, 0⟩ := by
    rw [key_callback_position _ _ _ _ _ _ (Or.inl rfl)]
    simp [GLFW_KEY_W, GLFW_KEY_S, GLFW_KEY_D, GLFW_KEY_A, GLFW_KEY_SPACE, GLFW_KEY_LEFT_SHIFT,
      GLFW_KEY_R, LightParams.sample, LightParams.initMatrices]
  refine ⟨hp, ?_⟩
  rw [hp]
  simp [LightParams.sample, LightParams.initMatrices, vec3_add_def]

/-- C6 amended, evaluated: from `(0, 103/10, 0)` Left Shift leads to
`(0, 10, 0)`, and from `(0, 10, 0)` Space leads to `(0, 103/10, 0)`. -/
theorem space_shift_move_vertically_witness :
    (GLFW_PRESS = GLFW_PRESS ∨ GLFW_PRESS = GLFW_REPEAT) ∧
    (key_callback GlmFns.sample LightParams.sample GLFW_KEY_SPACE 0 GLFW_PRESS 0).position =
      LightParams.sample.position + ⟨0, 3 / 10, 0⟩ ∧
    (key_callback GlmFns.sample
      { LightParams.sample with position := ⟨0, 103 / 10, 0⟩ }
      GLFW_KEY_LEFT_SHIFT 0 GLFW_PRESS 0).position =
      (⟨0, 103 / 10, 0⟩ : Vec3 ℚ) + ⟨0, -(3 / 10), 0⟩ :=
  ⟨Or.inl rfl,
   (space_shift_move_vertically GlmFns.sample LightParams.sample 0 GLFW_PRESS 0 (Or.inl rfl)).1,
   (space_shift_move_vertically GlmFns.sample
      { LightParams.sample with position := ⟨0, 103 / 10, 0⟩ } 0 GLFW_PRESS 0
      (Or.inl rfl)).2.1 (by show (10 : ℚ) < 103 / 10; norm_num)⟩

/-! ## C7: the framebuffer check -/

section Claims

variable {K : Type} [LinearOrderedField K]

/-- C7. With the value of `glCheckFramebufferStatus` an input: `setFrameBUffer`
writes "Frame buffer not created." to the console exactly when the status is
not `GL_FRAMEBUFFER_COMPLETE`; whatever the status, it returns the same program
state up to the console, having made the same OpenGL calls, which leave
framebuffer 0 bound; and `setup` then runs `createGeometry`, the matrix setup
and `light.initMatrices` to the same state, up to the console, for every
status. -/
theorem setFrameBUffer_status_logged_not_fatal (E : Env K) (st : Program K)
    (status : Nat → Nat) :
    (∃ (written : List String) (calls : List (GLCmd K)),
      (setFrameBUffer E st).console = st.console ++ written ∧
      ("Frame buffer not created. \n" ∈ written ↔
        E.glCheckFramebufferStatus GL_FRAMEBUFFER ≠ GL_FRAMEBUFFER_COMPLETE) ∧
      (E.glCheckFramebufferStatus GL_FRAMEBUFFER = GL_FRAMEBUFFER_COMPLETE ↔ written = []) ∧
      (setFrameBUffer E st).gl = st.gl ++ calls ∧
      ∀ g : GLState K, (g.run calls).1.framebuffer = 0) ∧
    { setFrameBUffer { E with glCheckFramebufferStatus := status } st with console := [] } =
      { setFrameBUffer E st with console := [] } ∧
    { setup { E with glCheckFramebufferStatus := status } st with console := [] } =
      { setup E st with console := [] } ∧
    (setup E st).console = (setFrameBUffer E st).console ∧
    (setup E st).light = st.light.initMatrices E.glm ∧
    (setup E st).sphere1.origin = ⟨0, 0, 0⟩ ∧
    (setup E st).sphere2.origin = ⟨-1, 0, -2⟩ ∧
    (setup E st).sphere1.base =
      (E.initBuffer st.sphere1.base (createGeometry.vertices E.sin E.cos).length
        (createGeometry.vertices E.sin E.cos)).1 ∧
    (setup E st).PV =
      E.glm.perspective 45 (800 / 800) (1 / 10) 100 * E.glm.lookAt ⟨0, 1, 3⟩ ⟨0, 0, 0⟩ ⟨0, 1, 0⟩ := by
  have hfb : ∀ (E1 E2 : Env K), E1.glGenFramebuffers = E2.glGenFramebuffers →
      E1.glGenTextures = E2.glGenTextures →
      { setFrameBUffer E1 st with console := [] } = { setFrameBUffer E2 st with console := [] } := by
    intro E1 E2 h1 h2
    unfold setFrameBUffer
    simp only [h1, h2]
    split_ifs <;> rfl
  refine ⟨?_, hfb _ _ rfl rfl, ?_, ?_, ?_, ?_, ?_, ?_, ?_⟩
  · refine ⟨if E.glCheckFramebufferStatus GL_FRAMEBUFFER ≠ GL_FRAMEBUFFER_COMPLETE then
        ["Frame buffer not created. \n", toString (E.glCheckFramebufferStatus GL_FRAMEBUFFER)]
        else [], (setFrameBUffer E { st with gl := [] }).gl, ?_, ?_, ?_, ?_, ?_⟩
    · unfold setFrameBUffer
      split_ifs <;> simp
    · split_ifs with hs <;> simp [hs]
    · split_ifs with hs
      · simp [hs]
      · simp [not_not.1 hs]
    · unfold setFrameBUffer
      split_ifs <;> simp
    · intro g
      unfold setFrameBUffer
      split_ifs <;> simp [GLState.run, GLState.exec]
  · unfold setup setFrameBUffer
    split_ifs <;> rfl
  · unfold setup setFrameBUffer
    split_ifs <;> rfl
  · unfold setup setFrameBUffer
    split_ifs <;> rfl
  · unfold setup setFrameBUffer
    split_ifs <;> rfl
  · unfold setup setFrameBUffer
    split_ifs <;> rfl
  · unfold setup setFrameBUffer
    split_ifs <;> rfl
  · unfold setup setFrameBUffer
    split_ifs <;> rfl

end Claims

/-- C7, evaluated: when the framebuffer is reported incomplete (status
`0x8CD6`), `setup` writes the message and the status and ends in the state it
reaches when the framebuffer is complete, console apart. -/
theorem setFrameBUffer_status_logged_not_fatal_witness :
    (setup { Env.sample with glCheckFramebufferStatus := fun _ => 0x8CD6 } Program.sample).console
      = ["Frame buffer not created. \n", "36054"] ∧
    (setup Env.sample Program.sample).console = [] ∧
    { setup { Env.sample with glCheckFramebufferStatus := fun _ => 0x8CD6 } Program.sample
        with console := [] } =
      { setup Env.sample Program.sample with console := [] } := by
  have h := setFrameBUffer_status_logged_not_fatal Env.sample Program.sample (fun _ => 0x8CD6)
  exact ⟨by decide, by decide, h.2.2.1⟩

/-! ## C8: the frame -/

section Lemmas

variable {K : Type}

/-- Running two traces one after the other. -/
theorem GLState.run_append (a b : List (GLCmd K)) :
    ∀ g : GLState K, g.run (a ++ b) =
      (((g.run a).1.run b).1, (g.run a).2 ++ ((g.run a).1.run b).2) := by
  induction a with
  | nil => intro g; simp [GLState.run]
  | cons c cs ih => intro g; simp [GLState.run, ih]

end Lemmas

section Claims

variable {K : Type} [LinearOrderedField K]

/-- C8. In every program state `renderScene` makes, after its two clear-colour
calls, the calls of `firstDrawPass` followed by the calls of `secondDrawPass`,
and the sequence of OpenGL functions called is the same in every state.  Run on
any OpenGL state, the frame clears depth and then draws the plane, sphere 1
and sphere 2 with `fboHandle` bound, then clears depth with framebuffer 0
bound, then draws sphere 1, sphere 2 and the plane with framebuffer 0 bound;
so, `fboHandle` being a generated (non-zero) name, nothing in `secondDrawPass`
clears the depth framebuffer. -/
theorem renderScene_two_pass (st : Program K) (g : GLState K) :
    renderScene st =
      [GLCmd.glClear GL_COLOR_BUFFER_BIT, GLCmd.glClearColor 1 1 1 1]
        ++ firstDrawPass st ++ secondDrawPass st ∧
    (∀ st2 : Program K, (renderScene st2).map GLCmd.name = (renderScene st).map GLCmd.name) ∧
    (g.run (renderScene st)).2.map GLEvent.target =
      [ (g.framebuffer, Sum.inl GL_COLOR_BUFFER_BIT),
        (st.fboHandle, Sum.inl GL_DEPTH_BUFFER_BIT),
        (st.fboHandle, Sum.inr st.plane.base.vao),
        (st.fboHandle, Sum.inr st.sphere1.base.vao),
        (st.fboHandle, Sum.inr st.sphere2.base.vao),
        (0, Sum.inl GL_DEPTH_BUFFER_BIT),
        (0, Sum.inr st.sphere1.base.vao),
        (0, Sum.inr st.sphere2.base.vao),
        (0, Sum.inr st.plane.base.vao) ] ∧
    (g.run (firstDrawPass st)).2.map GLEvent.target =
      [ (st.fboHandle, Sum.inl GL_DEPTH_BUFFER_BIT),
        (st.fboHandle, Sum.inr st.plane.base.vao),
        (st.fboHandle, Sum.inr st.sphere1.base.vao),
        (st.fboHandle, Sum.inr st.sphere2.base.vao) ] ∧
    (g.run (secondDrawPass st)).2.map GLEvent.target =
      [ (0, Sum.inl GL_DEPTH_BUFFER_BIT),
        (0, Sum.inr st.sphere1.base.vao),
        (0, Sum.inr st.sphere2.base.vao),
        (0, Sum.inr st.plane.base.vao) ] ∧
    (st.fboHandle ≠ 0 → ∀ mask : Nat,
      (st.fboHandle, Sum.inl mask) ∉ (g.run (secondDrawPass st)).2.map GLEvent.target) := by
  have h1 : ∀ g : GLState K, (g.run (firstDrawPass st)).2.map GLEvent.target =
      [ (st.fboHandle, Sum.inl GL_DEPTH_BUFFER_BIT),
        (st.fboHandle, Sum.inr st.plane.base.vao),
        (st.fboHandle, Sum.inr st.sphere1.base.vao),
        (st.fboHandle, Sum.inr st.sphere2.base.vao) ] := by
    intro g
    simp [firstDrawPass, GLState.run, GLState.exec, GLEvent.target]
  have h2 : ∀ g : GLState K, (g.run (secondDrawPass st)).2.map GLEvent.target =
      [ (0, Sum.inl GL_DEPTH_BUFFER_BIT),
        (0, Sum.inr st.sphere1.base.vao),
        (0, Sum.inr st.sphere2.base.vao),
        (0, Sum.inr st.plane.base.vao) ] := by
    intro g
    simp [secondDrawPass, GLState.run, GLState.exec, GLEvent.target]
  refine ⟨rfl, fun st2 => rfl, ?_, h1 g, h2 g, ?_⟩
  · unfold renderScene
    rw [GLState.run_append, GLState.run_append]
    simp only [List.map_append, h1, h2]
    simp [GLState.run, GLState.exec, GLEvent.target]
  · intro hfbo mask
    rw [h2]
    simp [hfbo]

end Claims

/-- C8, evaluated on the state `setup` produces from the sample inputs
(framebuffer 1; vertex arrays 5, 6, 7 for sphere 1, sphere 2, plane): the
draws and clears of one frame with the framebuffer each acts on. -/
theorem renderScene_two_pass_witness :
    (setup Env.sample Program.sample).fboHandle ≠ 0 ∧
    ((GLState.initial ℚ).run (renderScene (setup Env.sample Program.sample))).2.map
        GLEvent.target =
      [ (0, Sum.inl 0x4000), (1, Sum.inl 0x100), (1, Sum.inr 7), (1, Sum.inr 5),
        (1, Sum.inr 6), (0, Sum.inl 0x100), (0, Sum.inr 5), (0, Sum.inr 6), (0, Sum.inr 7) ] ∧
    (∀ mask : Nat, ((setup Env.sample Program.sample).fboHandle, Sum.inl mask) ∉
      ((GLState.initial ℚ).run (secondDrawPass (setup Env.sample Program.sample))).2.map
        GLEvent.target) := by
  have h := renderScene_two_pass (setup Env.sample Program.sample) (GLState.initial ℚ)
  have hf : (setup Env.sample Program.sample).fboHandle ≠ 0 := by decide
  refine ⟨hf, ?_, h.2.2.2.2.2 hf⟩
  rw [h.2.2.1]
  rfl

/-! ## C9: the sphere -/

section Lemmas

variable {K : Type} [LinearOrderedField K]

end Lemmas

/-! ### The claim, over the reals -/

section Lemmas

variable {K : Type} [LinearOrderedField K]

/-- The light `initMatrices` places is on the height grid. -/
theorem onHeightGrid_initMatrices (G : GlmFns K) (light : LightParams K) :
    OnHeightGrid (light.initMatrices G) :=
  ⟨0, by simp [LightParams.initMatrices]⟩

/-- Every key event keeps the light on the height grid. -/
theorem onHeightGrid_key_callback (G : GlmFns K) (light : LightParams K)
    (key scancode action mods : Int) (h : OnHeightGrid light) :
    OnHeightGrid (key_callback G light key scancode action mods) := by
  obtain ⟨n, hn⟩ := h
  by_cases ha : action = GLFW_PRESS ∨ action = GLFW_REPEAT
  · unfold OnHeightGrid
    rw [key_callback_position _ _ _ _ _ _ ha]
    split_ifs with hW hS hD hA hSp hL hR
    · exact ⟨n, by simp [vec3_add_def, vec3_scale_def, hn]⟩
    · exact ⟨n, by simp [vec3_add_def, vec3_scale_def, hn]⟩
    · exact ⟨n, by simp [vec3_add_def, vec3_scale_def, hn]⟩
    · exact ⟨n, by simp [vec3_add_def, vec3_scale_def, hn]⟩
    · exact ⟨n + 1, by simp [vec3_add_def, vec3_scale_def, hn, speed]; ring⟩
    · obtain ⟨-, hy⟩ := hL
      rw [hn] at hy
      cases n with
      | zero => simp at hy
      | succ m =>
        exact ⟨m, by simp [vec3_add_def, vec3_scale_def, hn, speed]; ring⟩
    · exact ⟨0, by simp⟩
    · exact ⟨n, hn⟩
  · unfold key_callback
    rw [if_neg ha]
    exact ⟨n, hn⟩

/-- Any sequence of key events keeps the light on the height grid. -/
theorem onHeightGrid_handleKeys (G : GlmFns K) (events : List KeyEvent) :
    ∀ light : LightParams K, OnHeightGrid light → OnHeightGrid (handleKeys G light events) := by
  induction events with
  | nil => intro light h; exact h
  | cons e es ih =>
    intro light h
    exact ih _ (onHeightGrid_key_callback G light e.key e.scancode e.action e.mods h)

end Lemmas

section Claims

variable {K : Type} [LinearOrderedField K]

/-- C10. Starting from the state `initMatrices` produces (light at
`(0, 10, 0)`), after any finite sequence of key events, with any keys and any
actions, `light.position.y` is at least 10. -/
theorem light_height_ge_start (G : GlmFns K) (light0 : LightParams K)
    (events : List KeyEvent) :
    (light0.initMatrices G).position = ⟨0, 10, 0⟩ ∧
    10 ≤ (handleKeys G (light0.initMatrices G) events).position.y := by
  refine ⟨rfl, ?_⟩
  obtain ⟨n, hn⟩ := onHeightGrid_handleKeys G events _ (onHeightGrid_initMatrices G light0)
  rw [hn]
  have : (0 : K) ≤ (n : K) * (3 / 10) := by positivity
  linarith

end Claims

/-! ## C11: the view from the light -/

section Lemmas

variable {K : Type} [LinearOrderedField K]

/-- The function `key_callback` is `recaliberate` applied to the light
`key_callback.recaliberateArg` returns, and the identity when it returns
none. -/
theorem key_callback_eq_recaliberateArg (G : GlmFns K) (light : LightParams K)
    (key scancode action mods : Int) :
    key_callback G light key scancode action mods =
      ((key_callback.recaliberateArg light key scancode action mods).map
        (LightParams.recaliberate G)).getD light := by
  unfold key_callback key_callback.recaliberateArg
  by_cases h : action = GLFW_PRESS ∨ action = GLFW_REPEAT
  · simp only [if_pos h]; rfl
  · simp only [if_neg h]; rfl

/-- For a light off the plane `y = 0` looking at the origin with up vector
`(0, 1, 0)`, `lookAt` is defined exactly when `position.x` and `position.z`
are not both 0. -/
theorem lookAtDefined_up_y_iff (position : Vec3 K) (hy : position.y ≠ 0) :
    lookAtDefined position ⟨0, 0, 0⟩ ⟨0, 1, 0⟩ ↔ ¬ (position.x = 0 ∧ position.z = 0) := by
  obtain ⟨x, y, z⟩ := position
  simp only [lookAtDefined, Vec3.cross, vec3_sub_def, Vec3.splat, ne_eq, Vec3.mk.injEq] at *
  constructor
  · rintro ⟨-, h⟩ ⟨hx, hz⟩
    apply h
    subst hx hz
    simp
  · intro h
    refine ⟨fun hh => hy (by simpa using hh.2.1), fun hh => h ⟨?_, ?_⟩⟩
    · have := hh.2.2; simpa using this
    · have := hh.1; simpa using this

end Lemmas

/-- C11 fails on the code.  The state `initMatrices` produces is reachable (by
no key event); there a press of Space reaches `recaliberate` with the light at
`(0, 103/10, 0)` and `forward = (0, 0, 0)`: `position.x` and `position.z` are
both 0, the view direction `forward - position` is parallel to the up vector,
their cross product is the zero vector, and `lookAt` is not defined.  Hence
not every call of `recaliberate` from a reachable state has a defined
`lookAt`. -/
theorem recaliberate_lookAt_degenerate_after_space :
    handleKeys GlmFns.sample (LightParams.initMatrices GlmFns.sample LightParams.zero) []
      = LightParams.sample ∧
    (key_callback.recaliberateArg LightParams.sample GLFW_KEY_SPACE 0 GLFW_PRESS 0).map
        (fun l => (l.position, l.forward))
      = some (⟨0, 103 / 10, 0⟩, ⟨0, 0, 0⟩) ∧
    (key_callback GlmFns.sample LightParams.sample GLFW_KEY_SPACE 0 GLFW_PRESS 0).View
      = GlmFns.sample.lookAt ⟨0, 103 / 10, 0⟩ ⟨0, 0, 0⟩ ⟨0, 1, 0⟩ ∧
    Vec3.cross ((⟨0, 0, 0⟩ : Vec3 ℚ) - ⟨0, 103 / 10, 0⟩) ⟨0, 1, 0⟩ = ⟨0, 0, 0⟩ ∧
    ¬ lookAtDefined (⟨0, 103 / 10, 0⟩ : Vec3 ℚ) ⟨0, 0, 0⟩ ⟨0, 1, 0⟩ ∧
    ¬ (∀ (events : List KeyEvent) (key scancode action mods : Int) (l : LightParams ℚ),
        key_callback.recaliberateArg
            (handleKeys GlmFns.sample
              (LightParams.initMatrices GlmFns.sample LightParams.zero) events)
            key scancode action mods = some l →
        lookAtDefined l.position l.forward ⟨0, 1, 0⟩) := by
  have harg : key_callback.recaliberateArg LightParams.sample GLFW_KEY_SPACE 0 GLFW_PRESS 0 =
      some { LightParams.sample with position := ⟨0, 103 / 10, 0⟩ } := by
    simp [key_callback.recaliberateArg, GLFW_KEY_W, GLFW_KEY_S, GLFW_KEY_D, GLFW_KEY_A,
      GLFW_KEY_SPACE, GLFW_KEY_LEFT_SHIFT, GLFW_KEY_R, GLFW_PRESS, LightParams.sample,
      LightParams.initMatrices, vec3_add_def, vec3_scale_def, speed]
    norm_num
  have hcross : Vec3.cross ((⟨0, 0, 0⟩ : Vec3 ℚ) - ⟨0, 103 / 10, 0⟩) ⟨0, 1, 0⟩ = ⟨0, 0, 0⟩ := by
    simp [Vec3.cross, vec3_sub_def]
  have hdef : ¬ lookAtDefined (⟨0, 103 / 10, 0⟩ : Vec3 ℚ) ⟨0, 0, 0⟩ ⟨0, 1, 0⟩ := by
    rintro ⟨-, h⟩
    exact h hcross
  refine ⟨rfl, ?_, ?_, hcross, hdef, ?_⟩
  · rw [harg]
    simp [LightParams.sample, LightParams.initMatrices, Vec3.splat]
  · rw [key_callback_eq_recaliberateArg, harg]
    simp [LightParams.recaliberate, LightParams.sample, LightParams.initMatrices, Vec3.splat]
  · intro hall
    have := hall [] GLFW_KEY_SPACE 0 GLFW_PRESS 0 _ harg
    exact hdef (by simpa [LightParams.sample, LightParams.initMatrices, Vec3.splat] using this)

end ShadowMapping
